import Mathlib

/-!
Shallow embedding of `src/exif-renamer.py` (EXIF Renamer v1.0.1).

Every definition below is translated from the Python source.  Machine-level
caveats of the embedding:

* Python dictionaries produced by parsing the external tool's JSON output are
  modelled as association lists of `String × JVal`; `JVal` covers the value
  shapes the claims depend on (text values versus non-text values).  Numeric
  and composite JSON values are omitted: their Python `str()` images can never
  contain a colon in position 4, so they behave exactly like the other
  non-text constructors with respect to every function modelled here.
* The regular expression class `\d` is modelled as an ASCII digit test.
* Python exceptions that the script does not catch (`NameError` from the
  undefined global `report` on line 184, `TypeError` from `re.sub`/`re.search`
  applied to a non-string) are modelled with `PyExn`; they abort the walk.
* The module-level binding of the *name* `report` consulted on line 184 is a
  `Option Bool` field of the configuration.  The shipped script never assigns
  that name anywhere (the CLI flag is `args.report`, the function parameter is
  `report_filename`), so the shipped program corresponds to `none`, and
  evaluating the branch raises `NameError`.
-/

/-- Python single-quote character, used when reproducing printed messages. -/
def squo : String := (Char.ofNat 39).toString

/-- Whitespace recognised by Python `str.strip` (ASCII subset). -/
def isPyWS (c : Char) : Bool :=
  c == ' ' || c == '\t' || c == '\n' || c == '\r' || c == Char.ofNat 11 || c == Char.ofNat 12

/-- `str.strip`: drop leading and trailing whitespace (list-of-chars level). -/
def stripList (l : List Char) : List Char :=
  ((l.dropWhile isPyWS).reverse.dropWhile isPyWS).reverse

/-- Metadata values as parsed from the external tool's JSON output.  `str` is a
text value; `boolV` and `null` are the non-text values the claims exercise. -/
inductive JVal where
  | str (s : String)
  | boolV (b : Bool)
  | null
deriving DecidableEq

/-- Python `str()` applied to a metadata value (or to `None` for a missing
field). -/
def JVal.pyText : JVal → String
  | .str s => s
  | .boolV true => "True"
  | .boolV false => "False"
  | .null => "None"

/-- A metadata mapping: string-keyed association list (a Python dict). -/
abbrev Metadata := List (String × JVal)

/-- `metadata.get(k)`: `none` when the key is absent. -/
def mget (m : Metadata) (k : String) : Option JVal :=
  match m with
  | [] => none
  | (k2, v) :: rest => if k2 == k then some v else mget rest k

/-- `str(metadata.get(k))`: Python renders a missing field (`None`) as
`"None"`. -/
def pyTextOpt : Option JVal → String
  | some v => v.pyText
  | none => "None"

/-- `re.match(r'(\d{4}):(\d{2}):(\d{2})', s)` as a Boolean: the pattern is
anchored at the start of the string, so it succeeds exactly when the first ten
characters are four digits, a colon, two digits, a colon, two digits. -/
def dateShape : List Char → Bool
  | y1 :: y2 :: y3 :: y4 :: a :: m1 :: m2 :: b :: d1 :: d2 :: _ =>
      y1.isDigit && y2.isDigit && y3.isDigit && y4.isDigit && a == ':' &&
        m1.isDigit && m2.isDigit && b == ':' && d1.isDigit && d2.isDigit
  | _ => false

/-- `bool(x and isinstance(x, str) and x.strip())` for a field value `x`
obtained from `metadata.get`: the value must be a non-empty string whose strip
is non-empty.  All non-string values fail (either falsy, or truthy but not an
instance of `str`). -/
def strFieldOk : Option JVal → Bool
  | some (JVal.str s) => !s.data.isEmpty && !(stripList s.data).isEmpty
  | _ => false

/-- `meets_renaming_criteria` (source lines 75-97): a valid anchored
`DateTimeOriginal` date pattern on `str(value)`, a non-blank string `Headline`,
and a non-blank string `Label`. -/
def meets_renaming_criteria (m : Metadata) : Bool :=
  dateShape (pyTextOpt (mget m "DateTimeOriginal")).data
    && strFieldOk (mget m "Headline") && strFieldOk (mget m "Label")

/-- Uncaught Python exceptions relevant to this script. -/
inductive PyExn where
  | nameErrorE
  | typeErrorE
deriving DecidableEq

/-- `Path(p).name`: the part after the last slash. -/
def baseName (p : String) : String :=
  String.mk ((p.data.reverse.takeWhile (fun c => !(c == '/'))).reverse)

/-- Index of the last dot of a name, as in `str.rfind`. -/
def rfindDot (l : List Char) : Option Nat :=
  match l.reverse.findIdx? (fun c => c == '.') with
  | some j => some (l.length - 1 - j)
  | none => none

/-- `Path(p).suffix`: the final extension with its dot, empty when the last dot
is leading or trailing (pathlib semantics). -/
def pySuffix (p : String) : String :=
  let nm := (baseName p).data
  match rfindDot nm with
  | some i => if 0 < i ∧ i < nm.length - 1 then String.mk (nm.drop i) else ""
  | none => ""

/-- `Path(p).stem`: the base name without `pySuffix`. -/
def pyStem (p : String) : String :=
  let nm := (baseName p).data
  match rfindDot nm with
  | some i => if 0 < i ∧ i < nm.length - 1 then String.mk (nm.take i) else String.mk nm
  | none => String.mk nm

/-- The character class removed by `re.sub(r'[\\/:*?"<>|]', '', headline)`. -/
def illegalChar (c : Char) : Bool :=
  c == '\\' || c == '/' || c == ':' || c == '*' || c == '?' || c == '"' ||
    c == '<' || c == '>' || c == '|'

/-- Headline sanitization (source line 110): remove the illegal characters,
then `.replace(' ', '_')`. -/
def sanitizeHeadline (h : String) : String :=
  String.mk ((h.data.filter (fun c => !illegalChar c)).map
    (fun c => if c == ' ' then '_' else c))

/-- `re.search(r'(\d{4}:\d{2}:\d{2})', s)`: scan left to right for the first
position where the ten-character date shape matches, returning the matched
characters. -/
def searchDate : List Char → Option (List Char)
  | y1 :: y2 :: y3 :: y4 :: a :: m1 :: m2 :: b :: d1 :: d2 :: rest =>
      if dateShape (y1 :: y2 :: y3 :: y4 :: a :: m1 :: m2 :: b :: d1 :: d2 :: rest) then
        some [y1, y2, y3, y4, a, m1, m2, b, d1, d2]
      else searchDate (y2 :: y3 :: y4 :: a :: m1 :: m2 :: b :: d1 :: d2 :: rest)
  | _ => none

/-- `generate_new_filename` (source lines 99-124).  The two `getD` defaults are
the source's `metadata.get(key, default)` fallbacks.  Applying `re.sub` to a
non-string headline, or `re.search` to a non-string date value, raises
`TypeError` in Python; the sanitization on line 110 runs before the date search
on line 114, so a non-string headline raises first. -/
def generate_new_filename (m : Metadata) (original_path : String) : Except PyExn String :=
  let datetime_original := (mget m "DateTimeOriginal").getD (JVal.str "unknown_date")
  let headline := (mget m "Headline").getD (JVal.str "no_headline")
  let original_filename_stem := pyStem original_path
  let file_suffix := pySuffix original_path
  match headline with
  | .str h =>
    let sanitized_headline := sanitizeHeadline h
    match datetime_original with
    | .str dt =>
      let formatted_date :=
        match searchDate dt.data with
        | some d => String.mk (d.filter (fun c => !(c == ':')))
        | none => "unknown_date"
      Except.ok (formatted_date ++ "_" ++ sanitized_headline ++ "_" ++
        original_filename_stem ++ file_suffix)
    | _ => Except.error PyExn.typeErrorE
  | _ => Except.error PyExn.typeErrorE

/-! ## The external metadata tool and the Metadata Reader -/

/-- Outcome of the single `exiftool` invocation performed for a file (plus its
sidecar).  `jsonOut` is a successfully parsed JSON array, one object per input
file; the other two constructors are the exceptions caught on source line 71
(`subprocess.CalledProcessError` from `check=True`, `json.JSONDecodeError`
from `json.loads`), each carrying the text Python would render for `e`. -/
inductive ToolOut where
  | jsonOut (objs : List Metadata)
  | calledProcessError (e : String)
  | jsonDecodeError (e : String)
deriving DecidableEq

/-- Whether the invocation failed (non-zero exit or unparseable output). -/
def ToolOut.failed : ToolOut → Bool
  | .jsonOut _ => false
  | _ => true

/-- `merged_metadata.update(item)`: later objects overwrite earlier keys.
With `mget` returning the first hit, prepending `item` realises exactly that
precedence. -/
def mergeDict (acc item : Metadata) : Metadata := item ++ acc

/-- `get_current_metadata_from_cli` (source lines 52-73): on success the merged
mapping with no diagnostics, on failure a single diagnostic line naming the
file and an empty mapping.  Returns (printed lines, resulting mapping). -/
def get_current_metadata_from_cli (file_path : String) (tool : ToolOut) :
    List String × Metadata :=
  match tool with
  | .jsonOut objs => ([], objs.foldl mergeDict [])
  | .calledProcessError e =>
      (["Error reading metadata from " ++ file_path ++ ": " ++ e], [])
  | .jsonDecodeError e =>
      (["Error reading metadata from " ++ file_path ++ ": " ++ e], [])

/-! ## Filesystem model and the Traversal & Checkpoint Driver -/

/-- A file entry of a directory: its name, the outcome the external tool
produces for it, and whether a same-stem `.xmp` sidecar exists next to it. -/
structure FileE where
  name : String
  tool : ToolOut
  hasXmp : Bool
deriving DecidableEq

mutual
/-- A source-tree directory: name, whether `.processed_marker` is present in
it, its plain files, and its subdirectories. -/
inductive FsTree where
  | mk (name : String) (marker : Bool) (files : List FileE) (subs : FsForest)
/-- A list of sibling subdirectories (mutual with `FsTree`). -/
inductive FsForest where
  | nil
  | cons (head : FsTree) (tail : FsForest)
end

def FsTree.name : FsTree → String
  | .mk n _ _ _ => n

def FsTree.marked : FsTree → Bool
  | .mk _ m _ _ => m

/-- Run configuration: the arguments of `traverse_and_rename` plus the
module-level binding of the global name `report` consulted on line 184.  The
shipped script binds `args.report` and `report_filename` but never the bare
name `report`, so the shipped program always has `globalReport = none`. -/
structure Cfg where
  archiveDir : String
  destinationDir : String
  debug : Bool
  reportFilename : Option String
  globalReport : Option Bool

/-- Observable effects of a run, in order of occurrence per field. -/
structure Effects where
  prints : List String
  metaReads : List String
  visited : List String
  copies : List (String × String)
  reportRows : List (List String)
  markers : List String
  csvFiles : List (String × List (List String))
deriving DecidableEq

def Effects.empty : Effects := ⟨[], [], [], [], [], [], []⟩

def Effects.append (a b : Effects) : Effects :=
  ⟨a.prints ++ b.prints, a.metaReads ++ b.metaReads, a.visited ++ b.visited,
   a.copies ++ b.copies, a.reportRows ++ b.reportRows, a.markers ++ b.markers,
   a.csvFiles ++ b.csvFiles⟩

/-- Effects of a (partial) run together with the uncaught exception that ended
it, if any. -/
structure WalkOut where
  eff : Effects
  exn : Option PyExn
deriving DecidableEq

/-- Sequential composition: an uncaught exception in the first part abandons
the rest, exactly like Python exception propagation. -/
def WalkOut.seq (a b : WalkOut) : WalkOut :=
  match a.exn with
  | some _ => a
  | none => ⟨a.eff.append b.eff, b.exn⟩

def WalkOut.pure (e : Effects) : WalkOut := ⟨e, none⟩

def pathJoin (a b : String) : String := a ++ "/" ++ b

def debugRenameMsg (oldName newName : String) : String :=
  "[DEBUG] Would rename " ++ squo ++ oldName ++ squo ++ " to " ++ squo ++ newName ++ squo

def debugSkipMsg (nm : String) : String :=
  "[DEBUG] Skipping " ++ squo ++ nm ++ squo ++ " - does not meet renaming criteria."

def skipProcessedMsg (rel : String) : String := "[SKIP] Already processed: " ++ rel

def receivedMsg (rootPath : String) : String :=
  "Skipping subdirectory " ++ squo ++ rootPath ++ squo ++ " due to " ++ squo ++
    "received" ++ squo ++ " keyword."

def markedMsg (rel : String) : String := "[INFO] Marked completed: " ++ rel

def reportWrittenMsg (p : String) : String := "[INFO] Report written to " ++ p

def copiedMsg (srcName destName : String) : String :=
  "Copied and renamed: " ++ squo ++ srcName ++ squo ++ " -> " ++ squo ++ destName ++ squo

/-- The media-extension allow-list of source lines 168-171. -/
def mediaExts : List String :=
  [".nef", ".cr3", ".psd", ".jpg", ".jpeg", ".png", ".tif", ".tiff",
   ".heic", ".heif", ".dng", ".avif", ".mov", ".mp4"]

def startsWithSeq : List Char → List Char → Bool
  | [], _ => true
  | _ :: _, [] => false
  | p :: ps, c :: cs => p == c && startsWithSeq ps cs

def endsWithSeq (sfx l : List Char) : Bool := startsWithSeq sfx.reverse l.reverse

/-- Substring test (Python `in` on strings), at the character-list level. -/
def containsSeq (pat : List Char) : List Char → Bool
  | [] => pat.isEmpty
  | c :: cs => startsWithSeq pat (c :: cs) || containsSeq pat cs

/-- `str.lower` (ASCII letters, which is all the compared literals use). -/
def lowerStr (s : String) : String := String.mk (s.data.map Char.toLower)

/-- `file.lower().endswith((...media extensions...))`. -/
def isMediaName (nm : String) : Bool :=
  mediaExts.any (fun ext => endsWithSeq ext.data (lowerStr nm).data)

def dropRightStr (p : String) (n : Nat) : String :=
  String.mk (p.data.take (p.data.length - n))

/-- `Path(p).with_suffix('.xmp')`. -/
def withSuffixXmp (p : String) : String :=
  dropRightStr p (pySuffix p).data.length ++ ".xmp"

/-- `copy_and_rename_file` (source lines 126-141), success branch: one copy
effect and its log line.  The `SameFileError` / generic-exception branches
only change the printed line and perform no copy; they are environment
triggered and not exercised by any claim. -/
def copy_and_rename_file (sourcePath destinationRoot newFilename : String) : Effects :=
  { Effects.empty with
    copies := [(sourcePath, pathJoin destinationRoot newFilename)],
    prints := [copiedMsg (baseName sourcePath) (baseName (pathJoin destinationRoot newFilename))] }

/-- The body of the `for file in files` loop (source lines 166-203) for one
file.  Reaching the branch `if report:` on line 184 looks up the module-global
name `report`; when it is unbound (`Cfg.globalReport = none`, the shipped
script) Python raises `NameError`. -/
def processFile (cfg : Cfg) (rootPath : String) (f : FileE) : WalkOut :=
  if isMediaName f.name then
    let file_path := pathJoin rootPath f.name
    let rm := get_current_metadata_from_cli file_path f.tool
    let base : Effects := { Effects.empty with prints := rm.1, metaReads := [file_path] }
    if meets_renaming_criteria rm.2 then
      match generate_new_filename rm.2 file_path with
      | .error e => ⟨base, some e⟩
      | .ok new_filename =>
        let afterDbg : Effects :=
          { base with prints := base.prints ++
              (if cfg.debug then [debugRenameMsg f.name new_filename] else []) }
        match cfg.globalReport with
        | none => ⟨afterDbg, some PyExn.nameErrorE⟩
        | some true =>
          ⟨{ afterDbg with reportRows :=
              [[f.name, file_path, new_filename, pathJoin cfg.destinationDir new_filename]] },
            none⟩
        | some false =>
          let mainCopy := copy_and_rename_file file_path cfg.destinationDir new_filename
          let xmpCopy :=
            if f.hasXmp then
              copy_and_rename_file (withSuffixXmp file_path) cfg.destinationDir
                (withSuffixXmp new_filename)
            else Effects.empty
          ⟨(afterDbg.append mainCopy).append xmpCopy, none⟩
    else
      ⟨{ base with prints := base.prints ++
          (if cfg.debug then [debugSkipMsg f.name] else []) }, none⟩
  else WalkOut.pure Effects.empty

def processFiles (cfg : Cfg) (rootPath : String) : List FileE → WalkOut
  | [] => WalkOut.pure Effects.empty
  | f :: fs => (processFile cfg rootPath f).seq (processFiles cfg rootPath fs)

/-- Relative path of a child directory, as `str(Path.relative_to)` renders it
(the traversal root itself is `"."`). -/
def childRel (rel nm : String) : String := if rel == "." then nm else rel ++ "/" ++ nm

mutual
/-- One `os.walk` step for a directory (source lines 146-207): checkpoint
skip with pruning, `received` skip with pruning, the per-file loop, the
marker write for non-root directories, then the subdirectories (top-down
order).  `visited` records every directory the walk yields. -/
def walkDir (cfg : Cfg) (rel : String) (rootPath : String) (d : FsTree) : WalkOut :=
  match d with
  | .mk _ marker files subs =>
    let visitedE : Effects := { Effects.empty with visited := [rel] }
    if marker then
      ⟨{ visitedE with prints := if cfg.debug then [skipProcessedMsg rel] else [] }, none⟩
    else if containsSeq "received".data (lowerStr rel).data then
      ⟨{ visitedE with prints := [receivedMsg rootPath] }, none⟩
    else
      let filesOut := processFiles cfg rootPath files
      let markOut : WalkOut :=
        if rel == "." then WalkOut.pure Effects.empty
        else ⟨{ Effects.empty with markers := [rel], prints := [markedMsg rel] }, none⟩
      ((WalkOut.pure visitedE).seq filesOut).seq (markOut.seq (walkForest cfg rel rootPath subs))
termination_by structural d
/-- Walk the subdirectories in order (mutual with `walkDir`). -/
def walkForest (cfg : Cfg) (rel : String) (rootPath : String) (ds : FsForest) : WalkOut :=
  match ds with
  | .nil => WalkOut.pure Effects.empty
  | .cons d rest =>
    (walkDir cfg (childRel rel d.name) (pathJoin rootPath d.name) d).seq
      (walkForest cfg rel rootPath rest)
termination_by structural ds
end

/-- The CSV header row written on source line 214. -/
def csvHeader : List String :=
  ["Current Filename", "Current Full Path", "Expected New Filename", "Future Full Path"]

/-- `traverse_and_rename` (source lines 143-216): the walk, then — only when
no exception escaped, a report filename was supplied and at least one row was
collected (line 210 `if report_filename and report_rows:`) — the CSV file
write into the destination directory. -/
def traverse_and_rename (cfg : Cfg) (tree : FsTree) : WalkOut :=
  let w := walkDir cfg "." cfg.archiveDir tree
  match w.exn, cfg.reportFilename with
  | none, some fn =>
    if w.eff.reportRows.isEmpty then w
    else
      w.seq (WalkOut.pure { Effects.empty with
        csvFiles := [(pathJoin cfg.destinationDir fn, csvHeader :: w.eff.reportRows)],
        prints := [reportWrittenMsg (pathJoin cfg.destinationDir fn)] })
  | _, _ => w

mutual
/-- `cleanup_checkpoints` (source lines 235-246): `rglob` finds every
`.processed_marker` under the root — visited or not — and unlinks it; on the
tree model this clears every marker bit. -/
def cleanup_checkpoints : FsTree → FsTree
  | .mk n _ files subs => .mk n false files (cleanupForest subs)
def cleanupForest : FsForest → FsForest
  | .nil => .nil
  | .cons d rest => .cons (cleanup_checkpoints d) (cleanupForest rest)
end

mutual
/-- No checkpoint marker exists anywhere in the tree. -/
def markerFree : FsTree → Bool
  | .mk _ m _ subs => !m && markerFreeF subs
def markerFreeF : FsForest → Bool
  | .nil => true
  | .cons d rest => markerFree d && markerFreeF rest
end

/-! ## Concrete inputs used by witnesses and counterexamples -/

/-- A metadata mapping satisfying all three renaming criteria. -/
def goodMeta : Metadata :=
  [("DateTimeOriginal", JVal.str "2021:07:04 10:15:00"), ("Headline", JVal.str "Picnic"),
   ("Label", JVal.str "Keep")]

/-- A qualifying media file whose metadata read succeeds. -/
def fileGood : FileE := ⟨"IMG_0042.NEF", ToolOut.jsonOut [goodMeta], false⟩

/-- An archive whose root directory holds exactly one qualifying file. -/
def tree1 : FsTree := .mk "arch" false [fileGood] .nil

/-- Report mode as launched by the shipped script: a report filename is set,
but the global name `report` is unbound. -/
def cfgC1 : Cfg := ⟨"/arch", "/dest", false, some "arch_report.csv", none⟩

/-- Debug mode combined with copy mode, as launched by the shipped script. -/
def cfgC2 : Cfg := ⟨"/arch", "/dest", true, none, none⟩

/-! ## Helper lemmas -/

theorem dateFieldIff (v : Option JVal) :
    dateShape (pyTextOpt v).data = true ↔
      ∃ s, v = some (JVal.str s) ∧ dateShape s.data = true := by
  cases v with
  | none =>
    constructor
    · intro h; exact absurd h (by decide)
    · rintro ⟨s, h, -⟩; cases h
  | some w =>
    cases w with
    | str s => simp [pyTextOpt, JVal.pyText]
    | boolV b =>
      cases b with
      | true =>
        constructor
        · intro h; exact absurd h (by decide)
        · rintro ⟨s, h, -⟩; cases h
      | false =>
        constructor
        · intro h; exact absurd h (by decide)
        · rintro ⟨s, h, -⟩; cases h
    | null =>
      constructor
      · intro h; exact absurd h (by decide)
      · rintro ⟨s, h, -⟩; cases h

theorem dropWhile_forall_iff (p : Char → Bool) (l : List Char) :
    (∀ c ∈ l.dropWhile p, p c = true) ↔ (∀ c ∈ l, p c = true) := by
  induction l with
  | nil => simp
  | cons c cs ih =>
    by_cases h : p c = true
    · simp [List.dropWhile_cons, h, ih]
    · simp [List.dropWhile_cons, h]

theorem stripList_eq_nil_iff (l : List Char) :
    stripList l = [] ↔ ∀ c ∈ l, isPyWS c = true := by
  unfold stripList
  rw [List.reverse_eq_nil_iff, List.dropWhile_eq_nil_iff]
  constructor
  · intro h
    exact (dropWhile_forall_iff isPyWS l).mp (fun x hx => h x (List.mem_reverse.mpr hx))
  · intro h
    exact fun x hx => (dropWhile_forall_iff isPyWS l).mpr h x (List.mem_reverse.mp hx)

theorem strip_ne_nil_iff_any (l : List Char) :
    ((stripList l).isEmpty = false) ↔ l.any (fun c => !isPyWS c) = true := by
  rw [List.isEmpty_eq_false_iff_exists_mem]
  constructor
  · rintro ⟨c, hc⟩
    by_contra hany
    have hall : ∀ x ∈ l, isPyWS x = true := by
      intro x hx
      by_contra hxw
      exact hany (List.any_eq_true.mpr ⟨x, hx, by simpa using hxw⟩)
    have := (stripList_eq_nil_iff l).mpr hall
    simp [this] at hc
  · intro hany
    obtain ⟨c, hc, hcw⟩ := List.any_eq_true.mp hany
    by_contra hstrip
    push_neg at hstrip
    have hnil : stripList l = [] := List.eq_nil_iff_forall_not_mem.mpr hstrip
    have := (stripList_eq_nil_iff l).mp hnil c hc
    simp [this] at hcw

theorem strFieldOkIff (v : Option JVal) :
    strFieldOk v = true ↔
      ∃ s, v = some (JVal.str s) ∧ s.data.any (fun c => !isPyWS c) = true := by
  cases v with
  | none => simp [strFieldOk]
  | some w =>
    cases w with
    | str s =>
      simp only [strFieldOk, Bool.and_eq_true, Bool.not_eq_true']
      constructor
      · rintro ⟨-, h2⟩
        exact ⟨s, rfl, (strip_ne_nil_iff_any s.data).mp h2⟩
      · rintro ⟨s2, heq, hany⟩
        obtain rfl : s = s2 := by injection heq with h; injection h
        refine ⟨?_, (strip_ne_nil_iff_any s.data).mpr hany⟩
        obtain ⟨c, hc, -⟩ := List.any_eq_true.mp hany
        rcases h : s.data with _ | _
        · rw [h] at hc; cases hc
        · simp [List.isEmpty, h]
    | boolV b => simp [strFieldOk]
    | null => simp [strFieldOk]

theorem isDigit_ne_colon (c : Char) (h : c.isDigit = true) : (c == ':') = false := by
  rcases hb : c == ':' with - | -
  · rfl
  · obtain rfl : c = ':' := beq_iff_eq.mp hb
    exact absurd h (by decide)

theorem searchDate_format (l : List Char) (h : dateShape l = true) :
    ∃ d : List Char, searchDate l = some d ∧
      (d.filter (fun c => !(c == ':'))).length = 8 ∧
      (d.filter (fun c => !(c == ':'))).all Char.isDigit = true := by
  rcases l with - | ⟨y1, l⟩; · simp [dateShape] at h
  rcases l with - | ⟨y2, l⟩; · simp [dateShape] at h
  rcases l with - | ⟨y3, l⟩; · simp [dateShape] at h
  rcases l with - | ⟨y4, l⟩; · simp [dateShape] at h
  rcases l with - | ⟨a, l⟩; · simp [dateShape] at h
  rcases l with - | ⟨m1, l⟩; · simp [dateShape] at h
  rcases l with - | ⟨m2, l⟩; · simp [dateShape] at h
  rcases l with - | ⟨b, l⟩; · simp [dateShape] at h
  rcases l with - | ⟨d1, l⟩; · simp [dateShape] at h
  rcases l with - | ⟨d2, l⟩; · simp [dateShape] at h
  have hs := h
  simp only [dateShape, Bool.and_eq_true, beq_iff_eq] at hs
  obtain ⟨⟨⟨⟨⟨⟨⟨⟨⟨h1, h2⟩, h3⟩, h4⟩, ha⟩, h5⟩, h6⟩, hb⟩, h7⟩, h8⟩ := hs
  subst ha; subst hb
  refine ⟨[y1, y2, y3, y4, ':', m1, m2, ':', d1, d2], ?_, ?_, ?_⟩
  · simp [searchDate, h]
  · simp [List.filter, isDigit_ne_colon _ h1, isDigit_ne_colon _ h2, isDigit_ne_colon _ h3,
      isDigit_ne_colon _ h4, isDigit_ne_colon _ h5, isDigit_ne_colon _ h6,
      isDigit_ne_colon _ h7, isDigit_ne_colon _ h8]
  · simp [List.filter, isDigit_ne_colon _ h1, isDigit_ne_colon _ h2, isDigit_ne_colon _ h3,
      isDigit_ne_colon _ h4, isDigit_ne_colon _ h5, isDigit_ne_colon _ h6,
      isDigit_ne_colon _ h7, isDigit_ne_colon _ h8, h1, h2, h3, h4, h5, h6, h7, h8]

theorem processFile_markers (cfg : Cfg) (rootPath : String) (f : FileE) :
    (processFile cfg rootPath f).eff.markers = [] := by
  unfold processFile
  dsimp only
  repeat' split
  all_goals rfl

theorem processFiles_markers (cfg : Cfg) (rootPath : String) (fs : List FileE) :
    (processFiles cfg rootPath fs).eff.markers = [] := by
  induction fs with
  | nil => rfl
  | cons f fs ih =>
    show ((processFile cfg rootPath f).seq (processFiles cfg rootPath fs)).eff.markers = []
    unfold WalkOut.seq
    split
    · exact processFile_markers cfg rootPath f
    · simp only [Effects.append]
      rw [processFile_markers cfg rootPath f, ih]
      rfl

/-! ## Additional definitions used to state claims -/

/-- The field is absent, or present with a text value (the typing condition
under which `generate_new_filename` cannot raise `TypeError`). -/
def textOrAbsent : Option JVal → Bool
  | none => true
  | some (JVal.str _) => true
  | _ => false

/-- The capture-date string the synthesizer works on: the field value when it
is text, else the default token `metadata.get` supplies for an absent field. -/
def dtFieldStr (m : Metadata) : String :=
  match mget m "DateTimeOriginal" with
  | some (JVal.str s) => s
  | _ => "unknown_date"

/-- The headline string the synthesizer works on, with its default token. -/
def hlFieldStr (m : Metadata) : String :=
  match mget m "Headline" with
  | some (JVal.str s) => s
  | _ => "no_headline"

/-- The datestamp component: the colon-stripped first date-pattern match, or
the literal fallback token when the pattern cannot be matched. -/
def formattedDateOf (s : String) : String :=
  match searchDate s.data with
  | some d => String.mk (d.filter (fun c => !(c == ':')))
  | none => "unknown_date"

/-- A mapping whose `Headline` holds a non-text (truthy Boolean) value. -/
def badHeadlineMeta : Metadata :=
  [("DateTimeOriginal", JVal.str "2021:07:04 10:15:00"), ("Headline", JVal.boolV true),
   ("Label", JVal.str "Keep")]

/-! ## Claims -/

/-- C3 counterexample: sanitizing the spec's example headline
"Family: Reunion/Day 1" does not give the claimed "Family_Reunion_Day_1" —
the slash is removed, not turned into an underscore. -/
theorem c3_counterexample :
    sanitizeHeadline "Family: Reunion/Day 1" ≠ "Family_Reunion_Day_1" := by decide

/-- C3 (amended): headline sanitization removes exactly the characters
backslash, forward slash, colon, asterisk, question mark, double-quote, angle
brackets and pipe, replaces every space with an underscore and keeps every
other character unchanged; in particular "Family: Reunion/Day 1" sanitizes to
"Family_ReunionDay_1". -/
theorem c3_sanitize_exact_charset :
    (∀ s : String, (sanitizeHeadline s).data =
        s.data.filterMap
          (fun c => if illegalChar c then none else some (if c == ' ' then '_' else c))) ∧
    sanitizeHeadline "Family: Reunion/Day 1" = "Family_ReunionDay_1" := by
  constructor
  · intro s
    show ((s.data.filter fun c => !illegalChar c).map fun c => if c == ' ' then '_' else c) = _
    induction s.data with
    | nil => rfl
    | cons c cs ih =>
      rcases hc : illegalChar c with - | -
      · rw [List.filter_cons, List.filterMap_cons, hc]
        exact congrArg (List.cons (if c == ' ' then '_' else c)) ih
      · rw [List.filter_cons, List.filterMap_cons, hc]
        exact ih
  · decide

/-- C4: the Criteria Evaluator accepts a mapping exactly when the capture-date
field holds a text value starting with the four-digits colon two-digits colon
two-digits pattern, the headline field holds a text value with some
non-whitespace character, and the label field likewise — a characterization
in terms of the three field lookups only, hence independent of all other
fields, and false whenever any one condition is missing. -/
theorem c4_criteria_iff (m : Metadata) :
    meets_renaming_criteria m = true ↔
      ((∃ s, mget m "DateTimeOriginal" = some (JVal.str s) ∧ dateShape s.data = true) ∧
       (∃ s, mget m "Headline" = some (JVal.str s) ∧ s.data.any (fun c => !isPyWS c) = true) ∧
       (∃ s, mget m "Label" = some (JVal.str s) ∧ s.data.any (fun c => !isPyWS c) = true)) := by
  unfold meets_renaming_criteria
  rw [Bool.and_eq_true, Bool.and_eq_true, and_assoc]
  exact and_congr (dateFieldIff _) (and_congr (strFieldOkIff _) (strFieldOkIff _))

/-- C5 counterexample: on a mapping whose headline field holds a non-text
value, the synthesizer raises `TypeError` (from `re.sub` on line 110) instead
of returning a composed filename, so the claim does not hold for every
metadata mapping. -/
theorem c5_counterexample :
    generate_new_filename badHeadlineMeta "IMG_0042.NEF" = Except.error PyExn.typeErrorE := by
  rfl

/-- C5 (amended): for every metadata mapping whose capture-date and headline
fields, when present, hold text values — in particular every mapping the
program feeds to the synthesizer — the result is
datestamp_sanitizedHeadline_originalStem originalExtension, where the
datestamp is the colon-stripped first date-pattern match of the capture date
or the literal fallback token "unknown_date" when the pattern cannot be
matched. -/
theorem c5_filename_composition (m : Metadata) (p : String)
    (hd : textOrAbsent (mget m "DateTimeOriginal") = true)
    (hh : textOrAbsent (mget m "Headline") = true) :
    generate_new_filename m p =
      Except.ok (formattedDateOf (dtFieldStr m) ++ "_" ++ sanitizeHeadline (hlFieldStr m) ++
        "_" ++ pyStem p ++ pySuffix p) := by
  unfold generate_new_filename dtFieldStr hlFieldStr formattedDateOf
  rcases hmd : mget m "DateTimeOriginal" with - | v
  · rcases hmh : mget m "Headline" with - | w
    · rfl
    · rcases w with s | b | -
      · rfl
      · rw [hmh] at hh; simp [textOrAbsent] at hh
      · rw [hmh] at hh; simp [textOrAbsent] at hh
  · rcases v with s | b | -
    · rcases hmh : mget m "Headline" with - | w
      · rfl
      · rcases w with s2 | b | -
        · rfl
        · rw [hmh] at hh; simp [textOrAbsent] at hh
        · rw [hmh] at hh; simp [textOrAbsent] at hh
    · rw [hmd] at hd; simp [textOrAbsent] at hd
    · rw [hmd] at hd; simp [textOrAbsent] at hd

/-- C5 witness: the spec's own example, obtained from the amended theorem. -/
theorem c5_witness :
    textOrAbsent (mget goodMeta "DateTimeOriginal") = true ∧
    textOrAbsent (mget goodMeta "Headline") = true ∧
    generate_new_filename goodMeta "IMG_0042.NEF" =
      Except.ok "20210704_Picnic_IMG_0042.NEF" :=
  ⟨rfl, rfl, (c5_filename_composition goodMeta "IMG_0042.NEF" rfl rfl).trans (by rfl)⟩

/-- C9: whenever the Criteria Evaluator accepts a mapping, the synthesizer
succeeds (no `TypeError`) and never substitutes the fallback token: the
result starts with eight digits — the anchored evaluator match guarantees the
synthesizer's unanchored search succeeds. -/
theorem c9_accepted_no_fallback (m : Metadata) (p : String)
    (h : meets_renaming_criteria m = true) :
    ∃ s, generate_new_filename m p = Except.ok s ∧
      8 ≤ s.data.length ∧ (s.data.take 8).all Char.isDigit = true := by
  unfold meets_renaming_criteria at h
  rw [Bool.and_eq_true, Bool.and_eq_true] at h
  obtain ⟨⟨hd, hh⟩, -⟩ := h
  obtain ⟨ds, hds, hshape⟩ := (dateFieldIff _).mp hd
  obtain ⟨hs, hhs, -⟩ := (strFieldOkIff _).mp hh
  obtain ⟨d10, hsd, hlen, hall⟩ := searchDate_format ds.data hshape
  refine ⟨String.mk (d10.filter (fun c => !(c == ':'))) ++ "_" ++ sanitizeHeadline hs ++
      "_" ++ pyStem p ++ pySuffix p, ?_, ?_, ?_⟩
  · unfold generate_new_filename
    rw [hds, hhs]
    dsimp only [Option.getD]
    rw [hsd]
  · rw [show (String.mk (d10.filter (fun c => !(c == ':'))) ++ "_" ++ sanitizeHeadline hs ++
        "_" ++ pyStem p ++ pySuffix p).data =
        d10.filter (fun c => !(c == ':')) ++ ("_" ++ sanitizeHeadline hs ++
          "_" ++ pyStem p ++ pySuffix p).data from by
      simp [String.data_append]]
    rw [List.length_append, hlen]
    omega
  · rw [show (String.mk (d10.filter (fun c => !(c == ':'))) ++ "_" ++ sanitizeHeadline hs ++
        "_" ++ pyStem p ++ pySuffix p).data =
        d10.filter (fun c => !(c == ':')) ++ ("_" ++ sanitizeHeadline hs ++
          "_" ++ pyStem p ++ pySuffix p).data from by
      simp [String.data_append]]
    rw [List.take_left' hlen]
    exact hall

/-- C9 witness: a concrete accepted mapping, run through the theorem. -/
theorem c9_witness :
    meets_renaming_criteria goodMeta = true ∧
    (∃ s, generate_new_filename goodMeta "IMG_0042.NEF" = Except.ok s ∧
      8 ≤ s.data.length ∧ (s.data.take 8).all Char.isDigit = true) :=
  ⟨by decide, c9_accepted_no_fallback goodMeta "IMG_0042.NEF" (by decide)⟩

/-- C6: a directory bearing the checkpoint marker is skipped entirely — the
walk yields the directory itself and nothing else: it reads no metadata,
performs no copy, appends no report row, writes no marker, visits none of its
subdirectories, and prints only the optional debug skip line. -/
theorem c6_marker_prunes_subtree (cfg : Cfg) (rel rootPath : String) (d : FsTree)
    (h : d.marked = true) :
    walkDir cfg rel rootPath d =
      ⟨⟨if cfg.debug then [skipProcessedMsg rel] else [], [], [rel], [], [], [], []⟩, none⟩ := by
  rcases d with ⟨nm, marker, files, subs⟩
  simp only [FsTree.marked] at h
  subst h
  rfl

/-- A marked directory holding a qualifying file and a subdirectory with
another qualifying file. -/
def c6Tree : FsTree :=
  .mk "sub" true [fileGood] (.cons (.mk "inner" false [fileGood] .nil) .nil)

/-- C6 witness: on the concrete marked directory, the walk produces exactly
the skip print and visits nothing below. -/
theorem c6_witness :
    c6Tree.marked = true ∧
    walkDir cfgC2 "sub" "/arch/sub" c6Tree =
      ⟨⟨[skipProcessedMsg "sub"], [], ["sub"], [], [], [], []⟩, none⟩ :=
  ⟨rfl, (c6_marker_prunes_subtree cfgC2 "sub" "/arch/sub" c6Tree rfl).trans (by rfl)⟩

mutual
theorem cleanup_tree_markerFree (t : FsTree) :
    markerFree (cleanup_checkpoints t) = true := by
  rcases t with ⟨nm, m, files, subs⟩
  show (!false && markerFreeF (cleanupForest subs)) = true
  rw [cleanup_forest_markerFree subs]
  rfl
theorem cleanup_forest_markerFree (f : FsForest) :
    markerFreeF (cleanupForest f) = true := by
  rcases f with - | ⟨d, rest⟩
  · rfl
  · show (markerFree (cleanup_checkpoints d) && markerFreeF (cleanupForest rest)) = true
    rw [cleanup_tree_markerFree d, cleanup_forest_markerFree rest]
    rfl
end

/-- C7: `cleanup_checkpoints` leaves no checkpoint marker anywhere in the
tree — whatever the traversal did, and in particular in directories that were
skipped for the exclusion keyword or for a pre-existing marker, since it
ranges over every directory under the root. -/
theorem c7_cleanup_removes_all_markers (t : FsTree) :
    markerFree (cleanup_checkpoints t) = true :=
  cleanup_tree_markerFree t

/-- C10: for every configuration — debug on or off, report filename set or
not, any binding of the global `report` — a non-root directory that is not
skipped and whose file loop raises no exception gets the checkpoint marker
written immediately after its files are processed, before its
subdirectories; this needs no qualifying file in the directory. -/
theorem c10_marker_written_every_mode (cfg : Cfg) (rel rootPath nm : String)
    (files : List FileE) (subs : FsForest)
    (hrecv : containsSeq "received".data (lowerStr rel).data = false)
    (hroot : (rel == ".") = false)
    (hfiles : (processFiles cfg rootPath files).exn = none) :
    ∃ rest, (walkDir cfg rel rootPath (FsTree.mk nm false files subs)).eff.markers
      = rel :: rest := by
  have hm := processFiles_markers cfg rootPath files
  rcases hpf : processFiles cfg rootPath files with ⟨fe, fx⟩
  rw [hpf] at hfiles hm
  simp only at hfiles hm
  subst hfiles
  refine ⟨(walkForest cfg rel rootPath subs).eff.markers, ?_⟩
  simp [walkDir, hrecv, hroot, hpf, WalkOut.seq, WalkOut.pure, Effects.append, hm,
    Effects.empty]

/-- C10 witness: a non-root directory with no files at all, walked in debug
plus report mode as the shipped script launches it, still gets its marker. -/
theorem c10_witness :
    containsSeq "received".data (lowerStr "sub").data = false ∧
    ("sub" == ".") = false ∧
    (processFiles ⟨"/arch", "/dest", true, some "arch_report.csv", none⟩ "/arch/sub" []).exn
      = none ∧
    ∃ rest,
      (walkDir ⟨"/arch", "/dest", true, some "arch_report.csv", none⟩ "sub" "/arch/sub"
        (FsTree.mk "sub" false [] FsForest.nil)).eff.markers = "sub" :: rest :=
  ⟨by decide, by decide, rfl,
    c10_marker_written_every_mode ⟨"/arch", "/dest", true, some "arch_report.csv", none⟩
      "sub" "/arch/sub" "sub" [] FsForest.nil (by decide) (by decide) rfl⟩

/-- C8: when the external tool invocation fails (non-zero exit or unparseable
output), the Metadata Reader prints exactly one diagnostic line containing the
file path and returns the empty mapping; the empty mapping fails the criteria
check, and the per-file driver step finishes without exception, with no copy
and no report row — processing continues with the next file. -/
theorem c8_tool_failure_recoverable (cfg : Cfg) (rootPath : String) (f : FileE)
    (h : f.tool.failed = true) :
    (get_current_metadata_from_cli (pathJoin rootPath f.name) f.tool).2 = [] ∧
    (∃ a b, (get_current_metadata_from_cli (pathJoin rootPath f.name) f.tool).1
        = [a ++ pathJoin rootPath f.name ++ b]) ∧
    meets_renaming_criteria
      (get_current_metadata_from_cli (pathJoin rootPath f.name) f.tool).2 = false ∧
    (processFile cfg rootPath f).exn = none ∧
    (processFile cfg rootPath f).eff.copies = [] ∧
    (processFile cfg rootPath f).eff.reportRows = [] := by
  have hmf : meets_renaming_criteria [] = false := by decide
  rcases f with ⟨nm, tool, hx⟩
  rcases tool with objs | e | e
  · simp [ToolOut.failed] at h
  · refine ⟨rfl, ⟨"Error reading metadata from ", ": " ++ e,
      congrArg (fun z => [z]) (String.append_assoc _ _ _)⟩, hmf, ?_, ?_, ?_⟩
    · rcases hmed : isMediaName nm with - | - <;>
        simp [processFile, hmed, hmf, get_current_metadata_from_cli, WalkOut.pure, Effects.empty]
    · rcases hmed : isMediaName nm with - | - <;>
        simp [processFile, hmed, hmf, get_current_metadata_from_cli, WalkOut.pure, Effects.empty]
    · rcases hmed : isMediaName nm with - | - <;>
        simp [processFile, hmed, hmf, get_current_metadata_from_cli, WalkOut.pure, Effects.empty]
  · refine ⟨rfl, ⟨"Error reading metadata from ", ": " ++ e,
      congrArg (fun z => [z]) (String.append_assoc _ _ _)⟩, hmf, ?_, ?_, ?_⟩
    · rcases hmed : isMediaName nm with - | - <;>
        simp [processFile, hmed, hmf, get_current_metadata_from_cli, WalkOut.pure, Effects.empty]
    · rcases hmed : isMediaName nm with - | - <;>
        simp [processFile, hmed, hmf, get_current_metadata_from_cli, WalkOut.pure, Effects.empty]
    · rcases hmed : isMediaName nm with - | - <;>
        simp [processFile, hmed, hmf, get_current_metadata_from_cli, WalkOut.pure, Effects.empty]

/-- C8 witness: a media file whose tool call exits non-zero. -/
theorem c8_witness :
    (FileE.mk "IMG_0001.JPG" (ToolOut.calledProcessError "exit status 1") false).tool.failed
        = true ∧
    ((get_current_metadata_from_cli
        (pathJoin "/arch" (FileE.mk "IMG_0001.JPG"
          (ToolOut.calledProcessError "exit status 1") false).name)
        (FileE.mk "IMG_0001.JPG" (ToolOut.calledProcessError "exit status 1") false).tool).2
        = [] ∧
      (∃ a b, (get_current_metadata_from_cli
          (pathJoin "/arch" (FileE.mk "IMG_0001.JPG"
            (ToolOut.calledProcessError "exit status 1") false).name)
          (FileE.mk "IMG_0001.JPG" (ToolOut.calledProcessError "exit status 1") false).tool).1
          = [a ++ pathJoin "/arch" (FileE.mk "IMG_0001.JPG"
              (ToolOut.calledProcessError "exit status 1") false).name ++ b]) ∧
      meets_renaming_criteria
        (get_current_metadata_from_cli
          (pathJoin "/arch" (FileE.mk "IMG_0001.JPG"
            (ToolOut.calledProcessError "exit status 1") false).name)
          (FileE.mk "IMG_0001.JPG" (ToolOut.calledProcessError "exit status 1") false).tool).2
        = false ∧
      (processFile cfgC1 "/arch" (FileE.mk "IMG_0001.JPG"
          (ToolOut.calledProcessError "exit status 1") false)).exn = none ∧
      (processFile cfgC1 "/arch" (FileE.mk "IMG_0001.JPG"
          (ToolOut.calledProcessError "exit status 1") false)).eff.copies = [] ∧
      (processFile cfgC1 "/arch" (FileE.mk "IMG_0001.JPG"
          (ToolOut.calledProcessError "exit status 1") false)).eff.reportRows = []) :=
  ⟨rfl, c8_tool_failure_recoverable cfgC1 "/arch"
    (FileE.mk "IMG_0001.JPG" (ToolOut.calledProcessError "exit status 1") false) rfl⟩

/-- C1 (code bug): run in report mode on an archive with one qualifying file,
exactly as the shipped script launches it, the traversal reads the file's
metadata and then raises `NameError` at the branch `if report:` (line 184
consults a global name the script never defines): no report row is appended,
no copy is performed, and no CSV file — with or without its header — is ever
written. -/
theorem c1_report_mode_raises_nameerror :
    traverse_and_rename cfgC1 tree1 =
      ⟨⟨[], ["/arch/IMG_0042.NEF"], ["."], [], [], [], []⟩, some PyExn.nameErrorE⟩ := by
  decide

/-- C2 (code bug): run in debug mode (combined with copy mode) on the same
archive, the driver prints the intended rename and then raises the same
`NameError`, aborting the run instead of continuing with only diagnostics;
debug mode reaches the copy/report branch unconditionally because lines
184-200 are not guarded by the debug flag. -/
theorem c2_debug_mode_raises_nameerror :
    traverse_and_rename cfgC2 tree1 =
      ⟨⟨[debugRenameMsg "IMG_0042.NEF" "20210704_Picnic_IMG_0042.NEF"],
        ["/arch/IMG_0042.NEF"], ["."], [], [], [], []⟩, some PyExn.nameErrorE⟩ := by
  decide
